import Mathlib

/-!
# Verification of the forensic design-data extractor

Shallow embedding of `src/forensic_extractor.py` (class `ForensicExtractor`).
Python dictionaries are embedded as association lists with Python's update
semantics: assignment to an existing key replaces the value in place, a new
key is appended at the end, and lookup returns the first (unique) match.
Machine integers do not overflow in the source's ranges, so coordinates and
page numbers are `Int` (the page sentinel is `-1`) and counters are `Nat`.
-/

namespace Extractor

/-- Embedding of Python `dict.get(k)` / `d[k]` read on an association list. -/
def dictLookup {κ α : Type} [DecidableEq κ] (k : κ) : List (κ × α) → Option α
  | [] => none
  | (k', v) :: rest => if k' = k then some v else dictLookup k rest

/-- Embedding of Python `d[k] = v`: replace in place if the key is present,
otherwise append at the end (Python dicts preserve insertion order). -/
def dictInsert {κ α : Type} [DecidableEq κ] (k : κ) (v : α) : List (κ × α) → List (κ × α)
  | [] => [(k, v)]
  | (k', v') :: rest => if k' = k then (k', v) :: rest else (k', v') :: dictInsert k v rest

/-- The keys of an embedded dict, in storage order. -/
def dictKeys {κ α : Type} (d : List (κ × α)) : List κ := d.map Prod.fst

theorem dictLookup_dictInsert_self {κ α : Type} [DecidableEq κ] (k : κ) (v : α)
    (d : List (κ × α)) : dictLookup k (dictInsert k v d) = some v := by
  induction d with
  | nil => simp [dictInsert, dictLookup]
  | cons p rest ih =>
    obtain ⟨k', v'⟩ := p
    by_cases h : k' = k
    · simp [dictInsert, dictLookup, h]
    · simp [dictInsert, dictLookup, h, ih]

@[simp] theorem dictKeys_nil {κ α : Type} : dictKeys ([] : List (κ × α)) = [] := rfl

@[simp] theorem dictKeys_cons {κ α : Type} (p : κ × α) (d : List (κ × α)) :
    dictKeys (p :: d) = p.1 :: dictKeys d := rfl

theorem dictLookup_dictInsert_ne {κ α : Type} [DecidableEq κ] {k k' : κ} (v : α)
    (d : List (κ × α)) (hne : k' ≠ k) :
    dictLookup k (dictInsert k' v d) = dictLookup k d := by
  induction d with
  | nil => simp [dictInsert, dictLookup, hne]
  | cons p rest ih =>
    obtain ⟨k'', v''⟩ := p
    by_cases h : k'' = k'
    · subst h
      simp [dictInsert, dictLookup, hne]
    · by_cases h2 : k'' = k
      · subst h2
        simp [dictInsert, dictLookup, h, Ne.symm hne]
      · simp [dictInsert, dictLookup, h, h2, ih]

theorem mem_dictKeys_dictInsert {κ α : Type} [DecidableEq κ] (a k : κ) (v : α)
    (d : List (κ × α)) :
    a ∈ dictKeys (dictInsert k v d) ↔ a = k ∨ a ∈ dictKeys d := by
  induction d with
  | nil => simp [dictInsert]
  | cons p rest ih =>
    obtain ⟨k', v'⟩ := p
    by_cases h : k' = k
    · subst h
      simp [dictInsert]
    · simp [dictInsert, h, ih]
      tauto

theorem dictKeys_nodup_dictInsert {κ α : Type} [DecidableEq κ] (k : κ) (v : α)
    (d : List (κ × α)) (hd : (dictKeys d).Nodup) :
    (dictKeys (dictInsert k v d)).Nodup := by
  induction d with
  | nil => simp [dictInsert]
  | cons p rest ih =>
    obtain ⟨k', v'⟩ := p
    rw [dictKeys_cons, List.nodup_cons] at hd
    by_cases h : k' = k
    · subst h
      simpa [dictInsert, List.nodup_cons] using hd
    · have hmem : k' ∉ dictKeys (dictInsert k v rest) := by
        rw [mem_dictKeys_dictInsert]
        rintro (rfl | hmem2)
        · exact h rfl
        · exact hd.1 hmem2
      simp [dictInsert, h, List.nodup_cons]
      exact ⟨hmem, ih hd.2⟩

/-! ## String helpers of the extractor -/

/-- Python `c in s` on a single character. -/
def pyContains (s : String) (c : Char) : Bool :=
  s.toList.contains c

/-- Helper of `pySplitChar`: split the remaining characters at the separator,
with the current piece accumulated in reverse. -/
def splitOnCharAux (c : Char) : List Char → List Char → List String
  | [], acc => [String.mk acc.reverse]
  | x :: xs, acc =>
    if x = c then String.mk acc.reverse :: splitOnCharAux c xs []
    else splitOnCharAux c xs (x :: acc)

/-- Python `s.split(c)` for a one-character separator (empty pieces kept). -/
def pySplitChar (s : String) (c : Char) : List String :=
  splitOnCharAux c s.toList []

/-- Python `s.strip('/')`: drop leading and trailing slash characters. -/
def stripSlashes (s : String) : String :=
  String.mk (((s.toList.dropWhile fun c => c = '/').reverse.dropWhile fun c => c = '/').reverse)

/-- `_parse_hierarchy_path`: split the cpath on `/` and keep the nonempty parts. -/
def parseHierarchyPath (cpath : String) : List String :=
  if cpath = "" then []
  else (pySplitChar (stripSlashes cpath) '/').filter fun p => p ≠ ""

/-- `_extract_instance_id`: last `/`-separated part when there are at least two,
otherwise the cpath itself. -/
def extractInstanceId (cpath : String) : String :=
  if pyContains cpath '/' then
    let parts := pySplitChar (stripSlashes cpath) '/'
    if 2 ≤ parts.length then parts.getLastD "" else cpath
  else cpath

/-- The leading ASCII-letter run of a string, as matched by `^([A-Za-z]+)`. -/
def leadingAlpha (s : String) : String :=
  String.mk (s.toList.takeWhile Char.isAlpha)

/-- Python `str.upper()` on the ASCII identifiers the extractor handles. -/
def pyToUpper (s : String) : String :=
  String.mk (s.toList.map Char.toUpper)

/-- Python `str.lower()` on the ASCII identifiers the extractor handles. -/
def pyToLower (s : String) : String :=
  String.mk (s.toList.map Char.toLower)

/-- The `type_map` dict of `_classify_component`. -/
def typeMap : List (String × String) :=
  [("R", "resistor"), ("C", "capacitor"), ("L", "inductor"), ("U", "ic"),
   ("Q", "transistor"), ("D", "diode"), ("J", "connector"), ("P", "connector"),
   ("CR", "led"), ("LED", "led"), ("F", "fuse"), ("FB", "ferrite_bead"),
   ("Y", "crystal"), ("SW", "switch"), ("TP", "test_point"), ("PTH", "pth_connector")]

/-- `_classify_component`: classify by the upper-cased refdes letter prefix. -/
def classifyComponent (refdes : String) : String :=
  let p := leadingAlpha refdes
  if p = "" then "unknown"
  else (dictLookup (pyToUpper p) typeMap).getD (pyToLower (pyToUpper p))

/-- Numeric value of a digit run. -/
def digitsToNat (l : List Char) : Nat :=
  l.foldl (fun a c => a * 10 + (c.toNat - 48)) 0

/-- Try to match `page_file_(\d+)\.ascii` at the head of the character list.
Taking the full digit run is equivalent to the regex's greedy `\d+` here:
giving a digit back would put a digit where `\.` is required. -/
def matchPageFileAt (l : List Char) : Option Nat :=
  let pre := "page_file_".toList
  if pre.isPrefixOf l then
    let rest := l.drop pre.length
    let ds := rest.takeWhile Char.isDigit
    if ds = [] then none
    else if ".ascii".toList.isPrefixOf (rest.drop ds.length) then some (digitsToNat ds)
    else none
  else none

/-- `re.search(r'page_file_(\d+)\.ascii', name)`: first match anywhere. -/
def searchPageFileNum : List Char → Option Nat
  | [] => none
  | c :: rest =>
    match matchPageFileAt (c :: rest) with
    | some n => some n
    | none => searchPageFileNum rest

/-- The shared page-number fallback: the file-local number parsed from the page
file's name, or 0 when the name does not match (`int(...) if match else 0`). -/
def fallbackPageIndex (name : String) : Int :=
  match searchPageFileNum name.toList with
  | some n => Int.ofNat n
  | none => 0

/-! ## Data model

Records embed the dict payloads the extractor builds.  Fields that no verified
operation ever reads (e.g. a symbol's body line list or a primitive's transform
matrix) are not carried; every field below is written by the same source line
as the dict key it embeds. -/

/-- One entry of a component's `pins` list (built in
`extract_nets_and_connectivity_from_xcon`). -/
structure PinData where
  pin_name : String
  pin_number : String
  pin_id : String
  net : String
  net_id : String
deriving DecidableEq

/-- A component record of `self.components` (built in `extract_components_from_json`). -/
structure Component where
  refdes : String
  type : String
  library : String
  part_name : String
  block : String
  hierarchy_path : String
  hierarchy_chain : List String
  instance_id : String
  properties : List (String × String)
  pins : List PinData
deriving DecidableEq

/-- A value of `self.instance_map`. -/
structure InstInfo where
  refdes : String
  comp_key : String
  block : String
deriving DecidableEq

/-- One entry of a net's `connections` list. -/
structure NetConnection where
  refdes : String
  pin : String
  instance_id : String
deriving DecidableEq

/-- A net record of `self.nets`. -/
structure Net where
  id : String
  name : String
  scope : Option String
  direction : Option String
  blocks : List String
  connections : List NetConnection
deriving DecidableEq

/-- A value of `self.graphics_positions` (built in
`extract_graphics_positions_from_pages`). -/
structure GraphicsPosition where
  x : Int
  y : Int
  page_file : String
  block : String
  page_index : Int
deriving DecidableEq

/-- A value of `self.instance_positions` (graphics id merged with its position). -/
structure InstancePosition where
  graphics_id : String
  x : Int
  y : Int
  page_file : String
  block : String
  page_index : Int
deriving DecidableEq

/-- One named text-anchor slot of `symbol_data['text_positions']`
(LOCATION / VALUE), with its offset relative to the instance origin. -/
structure TextAnchor where
  x : Int
  y : Int
  default_value : String
  justification : Int
  rotation : Int
  style_ref : String
deriving DecidableEq

/-- A symbol-cache record of `self.symbol_graphics`; only the payload consumed
by label synthesis is carried. -/
structure SymbolGraphics where
  symbol_key : String
  text_positions : List (String × TextAnchor)
deriving DecidableEq

/-- A value of `self.dx_instances` (built in `load_dx_json_instances`);
`symbol_cache_key` is `None` when library or model is missing. -/
structure DxInstance where
  instance_id : String
  library : String
  system_capture_model : String
  symbol : String
  symbol_cache_key : Option String
  block : String
  cpath : String
deriving DecidableEq

/-- One entry of `self.primitives`: the common payload of the wire, text and
instance-placement dicts. -/
structure Primitive where
  element_id : String
  sequence_index : Nat
  type : String
  shape_type : String
  label_type : String
  page_index : Int
  block : String
  origin : Int × Int
  points : List (Int × Int)
  text_content : String
  rotation : Int
  justification : Int
  alignment : String
  style_ref : String
  z_value : Int
  semantic_kind : String
  semantic_refdes : String
deriving DecidableEq

/-- The two id counters `_element_counter` and `_sequence_counter`. -/
structure Counters where
  element : Nat
  seq : Nat
deriving DecidableEq

/-- `_generate_element_id`: bump the element counter, return `prefix_N`. -/
def generateElementId (pre : String) (st : Counters) : String × Counters :=
  (pre ++ "_" ++ toString (st.element + 1), { st with element := st.element + 1 })

/-- `_next_sequence_index`: bump the shared sequence counter and return it. -/
def nextSequenceIndex (st : Counters) : Nat × Counters :=
  (st.seq + 1, { st with seq := st.seq + 1 })

/-- `_generate_sequence_id`: identical to `_next_sequence_index`, sharing the
same `_sequence_counter`. -/
def generateSequenceId (st : Counters) : Nat × Counters :=
  (st.seq + 1, { st with seq := st.seq + 1 })

/-! ## Page lookup and the geometry phases -/

/-- The `BLOCK_ALIASES` dict of `__init__`: filesystem block name to TOC name. -/
def BLOCK_ALIASES : List (String × String) := [("hdmi_block_2", "hdmi_block")]

/-- `{v: k for k, v in aliases.items()}` (`BLOCK_ALIASES_REVERSE` in `__init__`). -/
def reverseAliases (aliases : List (String × String)) : List (String × String) :=
  aliases.foldl (fun acc p => dictInsert p.2 p.1 acc) []

/-- `_get_pdf_page_index`: direct lookup in `page_mapping`, then one retry with
the forward alias (`BLOCK_ALIASES`), else the sentinel `-1`. -/
def getPdfPageIndex (page_mapping : List ((String × String) × Int))
    (aliases : List (String × String)) (block_name page_file_name : String) : Int :=
  match dictLookup (block_name, page_file_name) page_mapping with
  | some p => p
  | none =>
    match dictLookup block_name aliases with
    | some aliased =>
      match dictLookup (aliased, page_file_name) page_mapping with
      | some p => p
      | none => -1
    | none => -1

/-- The page number `_extract_wires_from_page_file` stamps on every wire of a
page file: the mapped PDF page, or on a miss the file-local number parsed from
the file name (0 when unparsable). -/
def wirePageIndex (page_mapping : List ((String × String) × Int))
    (aliases : List (String × String)) (block_name page_file_name : String) : Int :=
  let p := getPdfPageIndex page_mapping aliases block_name page_file_name
  if p = -1 then fallbackPageIndex page_file_name else p

/-- The wire primitive built per regex match in `_extract_wires_from_page_file`
(geometry and style fields fixed by the match payload). -/
def mkWirePrimitive (page_mapping : List ((String × String) × Int))
    (aliases : List (String × String)) (block_name page_file_name : String)
    (pts : List (Int × Int)) (cg_rotation z_value : Int) (st : Counters) :
    Primitive × Counters :=
  let (eid, st1) := generateElementId "wire" st
  let (sidx, st2) := nextSequenceIndex st1
  ({ element_id := eid, sequence_index := sidx, type := "line",
     shape_type := "wire", label_type := "",
     page_index := wirePageIndex page_mapping aliases block_name page_file_name,
     block := block_name, origin := (0, 0), points := pts, text_content := "",
     rotation := cg_rotation, justification := 0, alignment := "left",
     style_ref := "Style1", z_value := z_value,
     semantic_kind := "", semantic_refdes := "" }, st2)

/-- The per-record store of `extract_graphics_positions_from_pages`: tag the
matched position with `_get_pdf_page_index` and write it under the graphics id. -/
def recordGraphicsPosition (page_mapping : List ((String × String) × Int))
    (aliases : List (String × String)) (block_name page_file_name : String)
    (gid : String) (x y : Int)
    (graphics_positions : List (String × GraphicsPosition)) :
    List (String × GraphicsPosition) :=
  dictInsert gid
    { x := x, y := y, page_file := page_file_name, block := block_name,
      page_index := getPdfPageIndex page_mapping aliases block_name page_file_name }
    graphics_positions

/-- The per-record store of `build_instance_to_graphics_mapping` (line
`self.instance_to_graphics[inst_id] = graphics_id`). -/
def recordInstanceToGraphics (inst_id graphics_id : String)
    (instance_to_graphics : List (String × String)) : List (String × String) :=
  dictInsert inst_id graphics_id instance_to_graphics

/-! ## Component extraction (`extract_components_from_json`) -/

/-- One `data` item of a raw JSON instance. -/
structure RawDataItem where
  name : String
  value : String
deriving DecidableEq

/-- One entry of a part object's `meta.instances` list. -/
structure RawInstanceEntry where
  name : String
  value : String
  data : List RawDataItem
deriving DecidableEq

/-- One object of a component-definition JSON file. -/
structure RawPart where
  obj_type : String
  properties : List (String × String)
  instances : List RawInstanceEntry
deriving DecidableEq

/-- The accumulation tables `extract_components_from_json` writes. -/
structure ExtractState where
  components : List (String × Component)
  instance_map : List (String × InstInfo)
deriving DecidableEq

/-- `instance_data`: fold the `data` items into a dict (later items overwrite). -/
def buildInstanceData (items : List RawDataItem) : List (String × String) :=
  items.foldl (fun d it => dictInsert it.name it.value d) []

/-- The refdes a raw instance entry yields (`instance_data.get('refdes', '')`). -/
def refdesOfEntry (e : RawInstanceEntry) : String :=
  (dictLookup "refdes" (buildInstanceData e.data)).getD ""

/-- `properties.get(k, '')`. -/
def propGet (props : List (String × String)) (k : String) : String :=
  (dictLookup k props).getD ""

/-- The `library` field: first `:`-part of `CDS_LIBRARY_ID` when it has a colon. -/
def libraryOfProps (props : List (String × String)) : String :=
  let lid := propGet props "CDS_LIBRARY_ID"
  if pyContains lid ':' then (pySplitChar lid ':').headD "" else lid

/-- The `part_name` field: `PART_NAME`, falling back to `CDS_PART_NAME`. -/
def partNameOfProps (props : List (String × String)) : String :=
  match dictLookup "PART_NAME" props with
  | some v => v
  | none => propGet props "CDS_PART_NAME"

/-- The component record built for one raw instance of a part object. -/
def mkComponent (block_name : String) (props : List (String × String))
    (cpath refdes instance_id : String) : Component :=
  { refdes := refdes, type := classifyComponent refdes,
    library := libraryOfProps props, part_name := partNameOfProps props,
    block := block_name, hierarchy_path := cpath,
    hierarchy_chain := parseHierarchyPath cpath, instance_id := instance_id,
    properties := props, pins := [] }

/-- The dedup store into `self.components`: on a refdes collision keep the
record with the strictly longer hierarchy chain, ties keep the existing one. -/
def insertComponent (components : List (String × Component)) (c : Component) :
    List (String × Component) :=
  match dictLookup c.refdes components with
  | some existing =>
    if existing.hierarchy_chain.length < c.hierarchy_chain.length then
      dictInsert c.refdes c components
    else components
  | none => dictInsert c.refdes c components

/-- Processing of one `meta.instances` entry of a part object, with both
`instance_map` writes (block-qualified key, then bare instance id). -/
def processInstanceEntry (block_name : String) (props : List (String × String))
    (st : ExtractState) (e : RawInstanceEntry) : ExtractState :=
  if e.name ≠ "cpath" then st
  else
    let cpath := e.value
    let instance_id := extractInstanceId cpath
    if instance_id = "" then st
    else
      let refdes := refdesOfEntry e
      if refdes = "" then st
      else
        let comp := mkComponent block_name props cpath refdes instance_id
        let info : InstInfo := { refdes := refdes, comp_key := refdes, block := block_name }
        { components := insertComponent st.components comp,
          instance_map :=
            dictInsert instance_id info
              (dictInsert (block_name ++ ":" ++ instance_id) info st.instance_map) }

/-- Processing of one JSON object (skipped unless its type is `part`). -/
def processPart (block_name : String) (st : ExtractState) (part : RawPart) :
    ExtractState :=
  if part.obj_type ≠ "part" then st
  else part.instances.foldl (processInstanceEntry block_name part.properties) st

/-- `extract_components_from_json` over one file's object list. -/
def processJsonFile (block_name : String) (st : ExtractState)
    (objects : List RawPart) : ExtractState :=
  objects.foldl (processPart block_name) st

/-- The whole component-extraction phase over a list of (block, objects) files,
from the empty tables of `__init__`. -/
def runComponentExtraction (files : List (String × List RawPart)) : ExtractState :=
  files.foldl (fun st f => processJsonFile f.1 st f.2) { components := [], instance_map := [] }

/-! ## Connectivity (`extract_nets_and_connectivity_from_xcon`) -/

/-- `term_id_to_name.get(term_id_text, term_id_text)`. -/
def resolvePinName (term_id_to_name : List (String × String)) (term_id : String) : String :=
  (dictLookup term_id term_id_to_name).getD term_id

/-- One `<pin>` element of an XCON instance: its terminal id and the nets of
its `<connection>` children. -/
structure XconPin where
  termid : String
  connections : List String
deriving DecidableEq

/-- The `pins_data` entries built for one XCON pin: pin name resolved through
the cell terminal list, pin number looked up in the symbol pin table by
lower-cased pin name (empty string when absent), one entry per connection. -/
def pinEntriesForPin (symbol_pins : List (String × String))
    (term_id_to_name : List (String × String)) (net_id_map : List (String × String))
    (p : XconPin) : List PinData :=
  let pin_name := resolvePinName term_id_to_name p.termid
  let pin_number := (dictLookup (pyToLower pin_name) symbol_pins).getD ""
  p.connections.map fun net_id =>
    { pin_name := pin_name, pin_number := pin_number, pin_id := p.termid,
      net := (dictLookup net_id net_id_map).getD net_id, net_id := net_id }

/-- The connection append into `self.nets[net_name]['connections']`: the refdes
comes from the bare-id `instance_map` lookup, with the `INST_<id>` placeholder
when the instance cannot be resolved; nets not in the table are untouched. -/
def addConnectionToNet (nets : List (String × Net))
    (instance_map : List (String × InstInfo)) (net_name inst_id_num pin_name : String) :
    List (String × Net) :=
  match dictLookup net_name nets with
  | none => nets
  | some net =>
    let refdes :=
      match dictLookup inst_id_num instance_map with
      | some info => info.refdes
      | none => "INST_" ++ inst_id_num
    dictInsert net_name
      { net with connections :=
          net.connections ++ [{ refdes := refdes, pin := pin_name, instance_id := inst_id_num }] }
      nets

/-- The two-step `instance_map` lookup of the pin-attach step: block-qualified
key first, bare instance id as fallback. -/
def resolveInstInfo (instance_map : List (String × InstInfo))
    (block_name inst_id_num : String) : Option InstInfo :=
  match dictLookup (block_name ++ ":" ++ inst_id_num) instance_map with
  | some info => some info
  | none => dictLookup inst_id_num instance_map

/-- The pin write into a component: only when the resolved component's `pins`
list is still empty is `pins_data` stored (first successful write wins). -/
def attachComponentPins (components : List (String × Component))
    (instance_map : List (String × InstInfo)) (block_name inst_id_num : String)
    (pins_data : List PinData) : List (String × Component) :=
  match resolveInstInfo instance_map block_name inst_id_num with
  | none => components
  | some info =>
    match dictLookup info.comp_key components with
    | none => components
    | some comp =>
      if comp.pins = [] then
        dictInsert info.comp_key { comp with pins := pins_data } components
      else components

/-! ## Label synthesis (`_generate_instance_text_labels`) -/

/-- `self.symbol_graphics.get(symbol_cache_key, {})` with a possibly-`None` key. -/
def symbolGraphicsFor (symbol_graphics : List (String × SymbolGraphics))
    (key : Option String) : List (String × TextAnchor) :=
  match key with
  | some k =>
    match dictLookup k symbol_graphics with
    | some g => g.text_positions
    | none => []
  | none => []

/-- The refdes-label text primitive emitted for one instance whose symbol has a
LOCATION anchor: the anchor offset added to the instance's absolute position. -/
def mkRefdesLabel (refdes : String) (inst : DxInstance) (pos : InstancePosition)
    (loc : TextAnchor) (eid : String) (sidx : Nat) : Primitive :=
  { element_id := eid, sequence_index := sidx, type := "text",
    shape_type := "refdes_label", label_type := "LOCATION",
    page_index := pos.page_index, block := inst.block,
    origin := (pos.x + loc.x, pos.y + loc.y), points := [],
    text_content := refdes, rotation := loc.rotation,
    justification := loc.justification, alignment := "left",
    style_ref := loc.style_ref, z_value := 10000,
    semantic_kind := "refdes_label", semantic_refdes := refdes }

/-- The value-label text primitive.  A `dx_instances` record carries no
`properties` or `part_name` key, so `properties.get('VALUE', ...)` and the
`part_name` fallback both miss and the emitted text is always `?`. -/
def mkValueLabel (refdes : String) (inst : DxInstance) (pos : InstancePosition)
    (val : TextAnchor) (eid : String) (sidx : Nat) : Primitive :=
  { element_id := eid, sequence_index := sidx, type := "text",
    shape_type := "value_label", label_type := "VALUE",
    page_index := pos.page_index, block := inst.block,
    origin := (pos.x + val.x, pos.y + val.y), points := [],
    text_content := "?", rotation := val.rotation,
    justification := val.justification, alignment := "left",
    style_ref := val.style_ref, z_value := 10000,
    semantic_kind := "value_label", semantic_refdes := refdes }

/-- The labels generated for one `dx_instances` entry: nothing without a
resolved position; otherwise a LOCATION label and a VALUE label when the
symbol's `text_positions` carry those anchors. -/
def labelsForInstance (instance_positions : List (String × InstancePosition))
    (symbol_graphics : List (String × SymbolGraphics)) (st : Counters)
    (refdes : String) (inst : DxInstance) : List Primitive × Counters :=
  match dictLookup inst.instance_id instance_positions with
  | none => ([], st)
  | some pos =>
    let tps := symbolGraphicsFor symbol_graphics inst.symbol_cache_key
    let (locPrims, st1) :=
      match dictLookup "LOCATION" tps with
      | some loc =>
        let (eid, sta) := generateElementId "refdes" st
        let (sidx, stb) := nextSequenceIndex sta
        ([mkRefdesLabel refdes inst pos loc eid sidx], stb)
      | none => ([], st)
    let (valPrims, st2) :=
      match dictLookup "VALUE" tps with
      | some val =>
        let (eid, sta) := generateElementId "value" st1
        let (sidx, stb) := nextSequenceIndex sta
        ([mkValueLabel refdes inst pos val eid sidx], stb)
      | none => ([], st1)
    (locPrims ++ valPrims, st2)

/-- `_generate_instance_text_labels` over the `dx_instances` items, appending
each instance's labels to the primitive list. -/
def generateInstanceTextLabels (instance_positions : List (String × InstancePosition))
    (symbol_graphics : List (String × SymbolGraphics)) :
    List (String × DxInstance) → Counters → List Primitive × Counters
  | [], st => ([], st)
  | (refdes, inst) :: rest, st =>
    let (prims, st') := labelsForInstance instance_positions symbol_graphics st refdes inst
    let (restPrims, st'') := generateInstanceTextLabels instance_positions symbol_graphics rest st'
    (prims ++ restPrims, st'')

/-! ## Validation and export (`validate`, `export`, `main`) -/

/-- The errors/warnings `validate` accumulates. -/
structure ValidationResult where
  errors : List String
  warnings : List String
deriving DecidableEq

/-- `validate`: the only error is the under-10 component count; the low-count
warning fires on the `elif` branch (10..99), plus the missing-pin and
orphan-net warnings. -/
def validate (components : List (String × Component)) (nets : List (String × Net)) :
    ValidationResult :=
  let total := components.length
  let errors :=
    if total < 10 then
      ["CRITICAL: Only " ++ toString total ++ " components found. " ++
       "This suggests we may be looking at the wrong files!"]
    else []
  let lowWarnings :=
    if 10 ≤ total ∧ total < 100 then
      ["Low component count: " ++ toString total ++ ". Design may be incomplete."]
    else []
  let noPins := (components.filter fun p => p.2.pins = []).length
  let pinWarnings :=
    if 0 < noPins then
      [toString noPins ++ " components have no pin connectivity data"]
    else []
  let orphans := (nets.filter fun p => p.2.connections = []).length
  let orphanWarnings :=
    if 0 < orphans then [toString orphans ++ " nets have no connections"] else []
  { errors := errors, warnings := lowWarnings ++ pinWarnings ++ orphanWarnings }

/-- `validate`'s return value: `True` iff no errors were recorded. -/
def validatePasses (components : List (String × Component)) (nets : List (String × Net)) :
    Bool :=
  (validate components nets).errors.isEmpty

/-- The exported interchange document (the payload of `export` the claims
read: primitives verbatim, components flattened, nets). -/
structure ExportDoc where
  project : String
  primitives : List Primitive
  components_flat : List Component
  nets : List (String × Net)
deriving DecidableEq

/-- `export`: serialize the aggregate; primitives are exported verbatim. -/
def exportDocument (components : List (String × Component)) (nets : List (String × Net))
    (primitives : List Primitive) : ExportDoc :=
  { project := "brain_board", primitives := primitives,
    components_flat := components.map Prod.snd, nets := nets }

/-- The tail of `main`: export exactly when `validate` returned `True`;
otherwise no output document is written. -/
def runValidateAndExport (components : List (String × Component))
    (nets : List (String × Net)) (primitives : List Primitive) : Option ExportDoc :=
  if validatePasses components nets then
    some (exportDocument components nets primitives)
  else none

/-! ## Sequence-index runs -/

/-- The primitive-creating phases, each of which draws from the one shared
`_sequence_counter` via `_next_sequence_index`. -/
inductive SeqCaller
  | wirePhase
  | placementPhase
  | pageTextPhase
  | labelPhase
deriving DecidableEq

/-- A run of primitive creations across phases: every creation calls
`_next_sequence_index` on the shared counter, in creation order. -/
def runPhaseCalls : List SeqCaller → Counters → List (SeqCaller × Nat)
  | [], _ => []
  | t :: ts, st =>
    let (i, st') := nextSequenceIndex st
    (t, i) :: runPhaseCalls ts st'

/-! ## Concrete fixtures used by witnesses and counterexamples -/

/-- A sample pin record. -/
def testPin : PinData :=
  { pin_name := "clk", pin_number := "3", pin_id := "T1", net := "CLK", net_id := "N1" }

/-- A sample component with a given refdes and pin list. -/
def testComponent (r : String) (ps : List PinData) : Component :=
  { refdes := r, type := classifyComponent r, library := "discrete",
    part_name := "part", block := "usb_block",
    hierarchy_path := "/brain_board/" ++ r,
    hierarchy_chain := ["brain_board", r], instance_id := "I1",
    properties := [], pins := ps }

/-! ## Claims -/

/-- **C4**: component pin lists are write-once — when the component reached by
the connectivity phase already has a non-empty `pins` list, attaching a further
connectivity fragment's pin data leaves the component table unchanged. -/
theorem C4_pins_write_once
    (components : List (String × Component)) (instance_map : List (String × InstInfo))
    (block_name inst_id_num : String) (new_pins : List PinData)
    (info : InstInfo) (comp : Component)
    (hres : resolveInstInfo instance_map block_name inst_id_num = some info)
    (hcomp : dictLookup info.comp_key components = some comp)
    (hpins : comp.pins ≠ []) :
    attachComponentPins components instance_map block_name inst_id_num new_pins
      = components := by
  simp [attachComponentPins, hres, hcomp, hpins]

/-- Witness for C4: a concrete component whose pins survive a second write. -/
theorem C4_pins_write_once_witness :
    attachComponentPins [("U1", testComponent "U1" [testPin])]
        [("5", { refdes := "U1", comp_key := "U1", block := "usb_block" })]
        "usb_block" "5" [] = [("U1", testComponent "U1" [testPin])] :=
  C4_pins_write_once [("U1", testComponent "U1" [testPin])]
    [("5", { refdes := "U1", comp_key := "U1", block := "usb_block" })]
    "usb_block" "5" []
    { refdes := "U1", comp_key := "U1", block := "usb_block" }
    (testComponent "U1" [testPin]) (by decide) (by decide) (by decide)

/-- **C9**: every pin record built by the connectivity phase takes its pin
number from the symbol pin table by the lower-cased pin name, and a missing
entry yields the empty string rather than an error. -/
theorem C9_pin_number_lookup
    (symbol_pin_map : List (String × List (String × String)))
    (term_id_to_name net_id_map : List (String × String))
    (symbol_key : String) (p : XconPin) (d : PinData)
    (hd : d ∈ pinEntriesForPin ((dictLookup symbol_key symbol_pin_map).getD [])
            term_id_to_name net_id_map p) :
    d.pin_number =
      ((dictLookup (pyToLower (resolvePinName term_id_to_name p.termid))
        ((dictLookup symbol_key symbol_pin_map).getD [])).getD "") ∧
    (dictLookup (pyToLower (resolvePinName term_id_to_name p.termid))
        ((dictLookup symbol_key symbol_pin_map).getD []) = none →
      d.pin_number = "") := by
  simp only [pinEntriesForPin, List.mem_map] at hd
  obtain ⟨net_id, _, rfl⟩ := hd
  refine ⟨rfl, fun hnone => ?_⟩
  simp [hnone]

/-- Witness for C9: a missing symbol-pin entry yields an empty pin number, a
present entry yields the table's number. -/
theorem C9_pin_number_lookup_witness :
    (PinData.pin_number
      { pin_name := "T1", pin_number := "", pin_id := "T1", net := "N1", net_id := "N1" } = "")
    ∧
    (PinData.pin_number
      { pin_name := "VDDIO", pin_number := "7", pin_id := "T2", net := "N2", net_id := "N2" } = "7") := by
  constructor
  · exact (C9_pin_number_lookup [] [] [] "discrete##capacitor"
      { termid := "T1", connections := ["N1"] }
      { pin_name := "T1", pin_number := "", pin_id := "T1", net := "N1", net_id := "N1" }
      (by decide)).2 (by decide)
  · exact ((C9_pin_number_lookup [("ic##zynq", [("vddio", "7")])]
      [("T2", "VDDIO")] [] "ic##zynq"
      { termid := "T2", connections := ["N2"] }
      { pin_name := "VDDIO", pin_number := "7", pin_id := "T2", net := "N2", net_id := "N2" }
      (by decide)).1).trans (by decide)

/-- The page-mapping fragment of the C6 scenario: the HDMI page is recorded
under the filesystem block name. -/
def pageMappingC6 : List ((String × String) × Int) :=
  [(("hdmi_block_2", "page_file_1.ascii"), 4)]

/-- **C6 counterexample**: a mapping reachable only through the reverse
(display-name to storage-name) alias is NOT found — the lookup returns the
sentinel although `BLOCK_ALIASES_REVERSE` reaches the entry. -/
theorem C6_counterexample :
    getPdfPageIndex pageMappingC6 BLOCK_ALIASES "hdmi_block" "page_file_1.ascii" = -1 ∧
    dictLookup "hdmi_block" (reverseAliases BLOCK_ALIASES) = some "hdmi_block_2" ∧
    dictLookup ("hdmi_block_2", "page_file_1.ascii") pageMappingC6 = some 4 := by
  refine ⟨by decide, by decide, by decide⟩

/-- **C6 (amended)**: before declaring a miss the page lookup consults the
alias table in the storage-to-display direction only: a direct hit wins, a
forward-aliased hit is returned, and when the queried block has no forward
alias the result is the sentinel even if the reverse alias would reach an
entry. -/
theorem C6_forward_alias_only
    (pm : List ((String × String) × Int)) (al : List (String × String))
    (b f : String) :
    (∀ p, dictLookup (b, f) pm = some p → getPdfPageIndex pm al b f = p) ∧
    (∀ ab p, dictLookup (b, f) pm = none → dictLookup b al = some ab →
      dictLookup (ab, f) pm = some p → getPdfPageIndex pm al b f = p) ∧
    (dictLookup (b, f) pm = none → dictLookup b al = none →
      getPdfPageIndex pm al b f = -1) := by
  refine ⟨fun p h1 => ?_, fun ab p h1 h2 h3 => ?_, fun h1 h2 => ?_⟩
  · simp [getPdfPageIndex, h1]
  · simp [getPdfPageIndex, h1, h2, h3]
  · simp [getPdfPageIndex, h1, h2]

/-- Witness for the amended C6: the three lookup outcomes on concrete tables. -/
theorem C6_forward_alias_only_witness :
    getPdfPageIndex pageMappingC6 BLOCK_ALIASES "hdmi_block_2" "page_file_1.ascii" = 4 ∧
    getPdfPageIndex pageMappingC6 [("hdmi_block_3", "hdmi_block_2")]
      "hdmi_block_3" "page_file_1.ascii" = 4 ∧
    getPdfPageIndex pageMappingC6 BLOCK_ALIASES "gige_block" "page_file_1.ascii" = -1 := by
  refine ⟨(C6_forward_alias_only pageMappingC6 BLOCK_ALIASES "hdmi_block_2"
      "page_file_1.ascii").1 4 (by decide),
    (C6_forward_alias_only pageMappingC6 [("hdmi_block_3", "hdmi_block_2")]
      "hdmi_block_3" "page_file_1.ascii").2.1 "hdmi_block_2" 4
      (by decide) (by decide) (by decide),
    (C6_forward_alias_only pageMappingC6 BLOCK_ALIASES "gige_block"
      "page_file_1.ascii").2.2 (by decide) (by decide)⟩

/-- **C2 counterexample**: with an empty page-mapping table, a wire extracted
from `usb_block/page_file_1.ascii` is stamped with the file-local page number
1 (the true absolute page of that file is 3), not the sentinel. -/
theorem C2_counterexample :
    (mkWirePrimitive [] BLOCK_ALIASES "usb_block" "page_file_1.ascii"
      [(0, 0), (100, 0)] 0 10000 { element := 0, seq := 0 }).1.page_index = 1 ∧
    (mkWirePrimitive [] BLOCK_ALIASES "usb_block" "page_file_1.ascii"
      [(0, 0), (100, 0)] 0 10000 { element := 0, seq := 0 }).1.page_index ≠ -1 := by
  refine ⟨by decide, by decide⟩

/-- **C2 (amended)**: with the page-mapping table empty, graphics-position
records are stamped with the sentinel `-1`, while wire records fall back to
the file-local number parsed from the page file's name (0 when unparsable) —
e.g. `page_file_1.ascii` yields local page 1, not the sentinel. -/
theorem C2_empty_mapping_page_numbers
    (al : List (String × String)) (b f gid : String) (x y : Int)
    (gp : List (String × GraphicsPosition)) (pts : List (Int × Int))
    (rot z : Int) (st : Counters) :
    dictLookup gid (recordGraphicsPosition [] al b f gid x y gp) =
      some { x := x, y := y, page_file := f, block := b, page_index := -1 } ∧
    (mkWirePrimitive [] al b f pts rot z st).1.page_index = fallbackPageIndex f ∧
    fallbackPageIndex "page_file_1.ascii" = 1 := by
  have hempty : getPdfPageIndex [] al b f = -1 := by
    simp only [getPdfPageIndex, dictLookup]
    cases dictLookup b al <;> rfl
  refine ⟨?_, ?_, by decide⟩
  · unfold recordGraphicsPosition
    rw [hempty]
    exact dictLookup_dictInsert_self gid _ gp
  · simp [mkWirePrimitive, wirePageIndex, hempty, generateElementId, nextSequenceIndex]

/-- **C8**: validation fails fatally exactly when fewer than 10 components
were resolved — with 9 components no output document is produced and an error
is recorded, with 11 the run exports and only records warnings (the
low-confidence count warning among them). -/
theorem C8_validation_threshold
    (components : List (String × Component)) (nets : List (String × Net))
    (primitives : List Primitive) :
    (runValidateAndExport components nets primitives = none ↔ components.length < 10) ∧
    (components.length = 9 →
      runValidateAndExport components nets primitives = none ∧
      (validate components nets).errors ≠ []) ∧
    (components.length = 11 →
      runValidateAndExport components nets primitives =
        some (exportDocument components nets primitives) ∧
      (validate components nets).errors = [] ∧
      (validate components nets).warnings ≠ []) := by
  refine ⟨?_, fun h9 => ?_, fun h11 => ?_⟩
  · by_cases h : components.length < 10 <;>
      simp [runValidateAndExport, validatePasses, validate, h]
  · refine ⟨?_, ?_⟩ <;>
      simp [runValidateAndExport, validatePasses, validate, h9]
  · refine ⟨?_, ?_, ?_⟩ <;>
      simp [runValidateAndExport, validatePasses, validate, h11]

/-- Nine sample components, keyed by refdes. -/
def componentTable9 : List (String × Component) :=
  (List.range 9).map fun i => ("U" ++ toString i, testComponent ("U" ++ toString i) [testPin])

/-- Eleven sample components, keyed by refdes. -/
def componentTable11 : List (String × Component) :=
  (List.range 11).map fun i => ("U" ++ toString i, testComponent ("U" ++ toString i) [testPin])

/-- Witness for C8: the 9-component run aborts, the 11-component run exports. -/
theorem C8_validation_threshold_witness :
    runValidateAndExport componentTable9 [] [] = none ∧
    runValidateAndExport componentTable11 [] [] =
      some (exportDocument componentTable11 [] []) := by
  refine ⟨((C8_validation_threshold componentTable9 [] []).2.1 (by decide)).1,
    ((C8_validation_threshold componentTable11 [] []).2.2 (by decide)).1⟩

/-- Every index produced later in a run of sequence-counter calls exceeds the
counter value the run started from. -/
theorem runPhaseCalls_lt (ts : List SeqCaller) (st : Counters) :
    ∀ x ∈ runPhaseCalls ts st, st.seq < x.2 := by
  induction ts generalizing st with
  | nil => simp [runPhaseCalls]
  | cons t ts ih =>
    intro x hx
    simp only [runPhaseCalls, nextSequenceIndex, List.mem_cons] at hx
    rcases hx with rfl | hx
    · exact Nat.lt_succ_self _
    · have h := ih { st with seq := st.seq + 1 } x hx
      simp only at h
      omega

/-- **C5**: across a whole run, the sequence indices handed to primitives are
strictly increasing in creation order and pairwise distinct, whichever phase
created each primitive; `_generate_sequence_id` and `_next_sequence_index`
draw from the same shared counter. -/
theorem C5_sequence_monotone (ts : List SeqCaller) (st : Counters) :
    List.Pairwise (fun a b => a.2 < b.2) (runPhaseCalls ts st) ∧
    ((runPhaseCalls ts st).map Prod.snd).Nodup ∧
    generateSequenceId st = nextSequenceIndex st := by
  have hpair : List.Pairwise (fun a b : SeqCaller × Nat => a.2 < b.2) (runPhaseCalls ts st) := by
    induction ts generalizing st with
    | nil => simp [runPhaseCalls]
    | cons t ts ih =>
      simp only [runPhaseCalls, nextSequenceIndex, List.pairwise_cons]
      exact ⟨fun x hx => runPhaseCalls_lt ts _ x hx, ih _⟩
  refine ⟨hpair, ?_, rfl⟩
  rw [List.Nodup, List.pairwise_map]
  exact hpair.imp Nat.ne_of_lt

/-- **C10**: the bare-id entries of `instance_map` are last-write-wins — after
two raw records with the same extracted local instance id are processed from
two blocks, the bare key holds the later block's record, the connectivity
fallback (on a qualified-key miss) resolves to that record, and the
`instance_to_graphics` writes overwrite the same way. -/
theorem C10_bare_id_last_write_wins
    (st : ExtractState) (b1 b2 : String) (props1 props2 : List (String × String))
    (e1 e2 : RawInstanceEntry)
    (hn1 : e1.name = "cpath") (hn2 : e2.name = "cpath")
    (hid1 : extractInstanceId e1.value ≠ "")
    (hid2 : extractInstanceId e2.value = extractInstanceId e1.value)
    (hr1 : refdesOfEntry e1 ≠ "") (hr2 : refdesOfEntry e2 ≠ "") :
    (dictLookup (extractInstanceId e1.value)
      (processInstanceEntry b1 props1 st e1).instance_map =
      some { refdes := refdesOfEntry e1, comp_key := refdesOfEntry e1, block := b1 }) ∧
    (dictLookup (extractInstanceId e1.value)
      (processInstanceEntry b2 props2 (processInstanceEntry b1 props1 st e1) e2).instance_map =
      some { refdes := refdesOfEntry e2, comp_key := refdesOfEntry e2, block := b2 }) ∧
    (∀ qb, dictLookup (qb ++ ":" ++ extractInstanceId e1.value)
        (processInstanceEntry b2 props2 (processInstanceEntry b1 props1 st e1) e2).instance_map
          = none →
      resolveInstInfo
        (processInstanceEntry b2 props2 (processInstanceEntry b1 props1 st e1) e2).instance_map
        qb (extractInstanceId e1.value) =
        some { refdes := refdesOfEntry e2, comp_key := refdesOfEntry e2, block := b2 }) ∧
    (∀ (g : List (String × String)) (i g1 g2 : String),
      dictLookup i (recordInstanceToGraphics i g2 (recordInstanceToGraphics i g1 g)) = some g2) := by
  have hmap :
      (processInstanceEntry b2 props2 (processInstanceEntry b1 props1 st e1) e2).instance_map =
      dictInsert (extractInstanceId e1.value)
        { refdes := refdesOfEntry e2, comp_key := refdesOfEntry e2, block := b2 }
        (dictInsert (b2 ++ ":" ++ extractInstanceId e1.value)
          { refdes := refdesOfEntry e2, comp_key := refdesOfEntry e2, block := b2 }
          (processInstanceEntry b1 props1 st e1).instance_map) := by
    rw [show extractInstanceId e1.value = extractInstanceId e2.value from hid2.symm]
    simp [processInstanceEntry, hn2, hid2, hid1, hr2]
  have hbare :
      dictLookup (extractInstanceId e1.value)
        (processInstanceEntry b2 props2 (processInstanceEntry b1 props1 st e1) e2).instance_map =
      some { refdes := refdesOfEntry e2, comp_key := refdesOfEntry e2, block := b2 } := by
    rw [hmap]
    exact dictLookup_dictInsert_self _ _ _
  have hfirst :
      dictLookup (extractInstanceId e1.value)
        (processInstanceEntry b1 props1 st e1).instance_map =
      some { refdes := refdesOfEntry e1, comp_key := refdesOfEntry e1, block := b1 } := by
    simp [processInstanceEntry, hn1, hid1, hr1]
    exact dictLookup_dictInsert_self _ _ _
  refine ⟨hfirst, hbare, fun qb hq => ?_, fun g i g1 g2 => ?_⟩
  · simp [resolveInstInfo, hq, hbare]
  · exact dictLookup_dictInsert_self _ _ _

/-- First raw record of the C10 scenario (instance `I5` seen in `usb_block`). -/
def rawEntryC10a : RawInstanceEntry :=
  { name := "cpath", value := "/usb_block/I5",
    data := [{ name := "refdes", value := "R1" }] }

/-- Second raw record of the C10 scenario (same local id `I5` in `dsp_block`). -/
def rawEntryC10b : RawInstanceEntry :=
  { name := "cpath", value := "/dsp_block/I5",
    data := [{ name := "refdes", value := "R2" }] }

/-- Witness for C10: processing the two records makes the bare key `I5` hold
the `dsp_block` record, and the connectivity fallback from a third block
resolves to it. -/
theorem C10_bare_id_last_write_wins_witness :
    dictLookup "I5"
      (processInstanceEntry "dsp_block" []
        (processInstanceEntry "usb_block" []
          { components := [], instance_map := [] } rawEntryC10a) rawEntryC10b).instance_map =
      some { refdes := "R2", comp_key := "R2", block := "dsp_block" } ∧
    resolveInstInfo
      (processInstanceEntry "dsp_block" []
        (processInstanceEntry "usb_block" []
          { components := [], instance_map := [] } rawEntryC10a) rawEntryC10b).instance_map
      "gige_block" "I5" =
      some { refdes := "R2", comp_key := "R2", block := "dsp_block" } := by
  have h := C10_bare_id_last_write_wins
    { components := [], instance_map := [] } "usb_block" "dsp_block" [] []
    rawEntryC10a rawEntryC10b (by decide) (by decide) (by decide) (by decide)
    (by decide) (by decide)
  have h1 := h.2.1
  have h2 := h.2.2.1 "gige_block" (by decide)
  have eI : extractInstanceId rawEntryC10a.value = "I5" := by decide
  have eR : refdesOfEntry rawEntryC10b = "R2" := by decide
  rw [eI, eR] at h1 h2
  exact ⟨h1, h2⟩

/-- `insertComponent` preserves distinctness of the component-table keys. -/
theorem insertComponent_nodup (comps : List (String × Component)) (c : Component)
    (h : (dictKeys comps).Nodup) : (dictKeys (insertComponent comps c)).Nodup := by
  cases hl : dictLookup c.refdes comps with
  | none =>
    simp only [insertComponent, hl]
    exact dictKeys_nodup_dictInsert _ _ _ h
  | some existing =>
    simp only [insertComponent, hl]
    split
    · exact dictKeys_nodup_dictInsert _ _ _ h
    · exact h

/-- A property preserved by each fold step is preserved by the whole fold. -/
theorem foldl_preserve {α β : Type} (P : β → Prop) (f : β → α → β)
    (hf : ∀ b a, P b → P (f b a)) :
    ∀ (l : List α) (b : β), P b → P (l.foldl f b) := by
  intro l
  induction l with
  | nil => intro b hb; simpa using hb
  | cons x xs ih => intro b hb; simpa using ih _ (hf b x hb)

/-- Processing one raw instance entry preserves component-key distinctness. -/
theorem processInstanceEntry_nodup (b : String) (props : List (String × String))
    (st : ExtractState) (e : RawInstanceEntry)
    (h : (dictKeys st.components).Nodup) :
    (dictKeys (processInstanceEntry b props st e).components).Nodup := by
  by_cases h1 : e.name = "cpath"
  · by_cases h2 : extractInstanceId e.value = ""
    · simp [processInstanceEntry, h1, h2, h]
    · by_cases h3 : refdesOfEntry e = ""
      · simp [processInstanceEntry, h1, h2, h3, h]
      · simp only [processInstanceEntry, h1, h2, h3]
        simpa using insertComponent_nodup st.components _ h
  · simp [processInstanceEntry, h1, h]

/-- Processing one part object preserves component-key distinctness. -/
theorem processPart_nodup (b : String) (st : ExtractState) (part : RawPart)
    (h : (dictKeys st.components).Nodup) :
    (dictKeys (processPart b st part).components).Nodup := by
  unfold processPart
  split
  · exact h
  · exact foldl_preserve (fun s : ExtractState => (dictKeys s.components).Nodup) _
      (fun s e hs => processInstanceEntry_nodup b part.properties s e hs) _ _ h

/-- Processing one JSON file preserves component-key distinctness. -/
theorem processJsonFile_nodup (b : String) (st : ExtractState) (objects : List RawPart)
    (h : (dictKeys st.components).Nodup) :
    (dictKeys (processJsonFile b st objects).components).Nodup := by
  unfold processJsonFile
  exact foldl_preserve (fun s : ExtractState => (dictKeys s.components).Nodup)
    (processPart b) (fun s p hs => processPart_nodup b s p hs) objects st h

/-- Folding any sequence of JSON files preserves component-key distinctness. -/
theorem runComponentExtraction_nodup_aux (files : List (String × List RawPart)) :
    ∀ (st : ExtractState), (dictKeys st.components).Nodup →
    (dictKeys ((files.foldl (fun st f => processJsonFile f.1 st f.2) st)).components).Nodup := by
  induction files with
  | nil => intro st h; simpa using h
  | cons f fs ih =>
    intro st h
    simpa using ih _ (processJsonFile_nodup f.1 st f.2 h)

/-- The whole component-extraction phase keeps the component-table keys
pairwise distinct. -/
theorem runComponentExtraction_nodup (files : List (String × List RawPart)) :
    (dictKeys (runComponentExtraction files).components).Nodup := by
  unfold runComponentExtraction
  exact runComponentExtraction_nodup_aux files { components := [], instance_map := [] } (by simp)

/-- On a refdes collision against a stored record `c1`, `insertComponent`
keeps whichever whole record wins the chain-length comparison. -/
theorem insertComponent_collision (A : List (String × Component)) (c1 c2 : Component)
    (h12 : c2.refdes = c1.refdes)
    (hA : dictLookup c2.refdes A = some c1) :
    dictLookup c1.refdes (insertComponent A c2) =
      some (if c1.hierarchy_chain.length < c2.hierarchy_chain.length then c2 else c1) := by
  simp only [insertComponent, hA]
  by_cases hlen : c1.hierarchy_chain.length < c2.hierarchy_chain.length
  · simp only [if_pos hlen]
    rw [h12]
    exact dictLookup_dictInsert_self _ _ _
  · simp only [if_neg hlen]
    rw [← h12]
    exact hA

/-- **C1**: the aggregate component table never holds two entries with the
same refdes, and on a refdes collision the raw record with the strictly
longer hierarchy chain replaces the stored one while an equal-or-shorter
chain keeps the first-seen record whole (never merged field-by-field). -/
theorem C1_refdes_dedup
    (files : List (String × List RawPart))
    (comps : List (String × Component)) (c1 c2 : Component)
    (h12 : c2.refdes = c1.refdes)
    (habs : dictLookup c1.refdes comps = none) :
    (dictKeys (runComponentExtraction files).components).Nodup ∧
    dictLookup c1.refdes (insertComponent (insertComponent comps c1) c2) =
      some (if c1.hierarchy_chain.length < c2.hierarchy_chain.length then c2 else c1) := by
  constructor
  · exact runComponentExtraction_nodup files
  · have m1 : dictLookup c1.refdes (insertComponent comps c1) = some c1 := by
      simp only [insertComponent, habs]
      exact dictLookup_dictInsert_self _ _ _
    have m2 : dictLookup c2.refdes (insertComponent comps c1) = some c1 := by
      rw [h12]; exact m1
    exact insertComponent_collision (insertComponent comps c1) c1 c2 h12 m2

/-- The shorter-chain raw component record of the C1 scenario. -/
def componentChain1 : Component :=
  { refdes := "R9", type := "resistor", library := "discrete", part_name := "res",
    block := "usb_block", hierarchy_path := "/usb_block/I7",
    hierarchy_chain := ["usb_block"], instance_id := "I7", properties := [], pins := [] }

/-- The longer-chain raw component record of the C1 scenario. -/
def componentChain3 : Component :=
  { refdes := "R9", type := "resistor", library := "discrete", part_name := "res",
    block := "reusable_usb_conn",
    hierarchy_path := "/brain_board/usb_block/reusable_usb_conn/I7",
    hierarchy_chain := ["brain_board", "usb_block", "reusable_usb_conn"],
    instance_id := "I7", properties := [], pins := [] }

/-- A raw part object for exercising the extraction fold. -/
def rawPartC1 : RawPart :=
  { obj_type := "part", properties := [("CDS_LIBRARY_ID", "discrete:16")],
    instances := [rawEntryC10a] }

/-- Witness for C1: a concrete run has distinct refdes keys, and the length-3
chain beats the length-1 chain on the shared refdes `R9`. -/
theorem C1_refdes_dedup_witness :
    (dictKeys (runComponentExtraction [("usb_block", [rawPartC1])]).components).Nodup ∧
    dictLookup "R9" (insertComponent (insertComponent [] componentChain1) componentChain3) =
      some componentChain3 := by
  have h := C1_refdes_dedup [("usb_block", [rawPartC1])] [] componentChain1 componentChain3
    (by decide) (by decide)
  refine ⟨h.1, ?_⟩
  have h2 := h.2
  simpa [componentChain1, componentChain3] using h2

/-- The CLK net record of the C3 scenario, before any connection is appended. -/
def netCLK : Net :=
  { id := "N1", name := "CLK", scope := none, direction := none,
    blocks := ["usb_block"], connections := [] }

/-- The net table of the C3 scenario. -/
def netTableC3 : List (String × Net) := [("CLK", netCLK)]

/-- **C3 counterexample**: a connection whose instance id is not in the
instance map is recorded under the placeholder refdes `INST_5`, which is
absent from the (11-entry, validation-passing) component table, and
`validate` reports no error for it. -/
theorem C3_counterexample :
    (dictLookup "CLK" (addConnectionToNet netTableC3 [] "CLK" "5" "A1")).map Net.connections =
      some [{ refdes := "INST_5", pin := "A1", instance_id := "5" }] ∧
    dictLookup "INST_5" componentTable11 = none ∧
    (validate componentTable11 (addConnectionToNet netTableC3 [] "CLK" "5" "A1")).errors = [] := by
  refine ⟨by decide, by decide, by decide⟩

/-- **C3 (amended)**: a net connection records the refdes resolved through the
bare-id instance-map lookup, or the `INST_<id>` placeholder when the lookup
misses — a refdes that need not exist in the component table; `validate`
records an error exactly when the component count is below 10, so a dangling
connection refdes is never reported. -/
theorem C3_placeholder_connections
    (nets : List (String × Net)) (instance_map : List (String × InstInfo))
    (net_name inst_id pin_name : String) (net : Net)
    (hnet : dictLookup net_name nets = some net) :
    dictLookup net_name (addConnectionToNet nets instance_map net_name inst_id pin_name) =
      some { net with connections := net.connections ++
        [{ refdes := ((dictLookup inst_id instance_map).map InstInfo.refdes).getD
             ("INST_" ++ inst_id),
           pin := pin_name, instance_id := inst_id }] } ∧
    (∀ comps : List (String × Component),
      (validate comps nets).errors ≠ [] ↔ comps.length < 10) := by
  constructor
  · cases h : dictLookup inst_id instance_map <;>
      simp [addConnectionToNet, hnet, h, dictLookup_dictInsert_self]
  · intro comps
    by_cases h : comps.length < 10 <;> simp [validate, h]

/-- Witness for the amended C3: the appended placeholder connection and the
count-only error criterion on concrete tables. -/
theorem C3_placeholder_connections_witness :
    dictLookup "CLK" (addConnectionToNet netTableC3 [] "CLK" "5" "A1") =
      some { netCLK with
        connections := [{ refdes := "INST_5", pin := "A1", instance_id := "5" }] } ∧
    ((validate componentTable9 netTableC3).errors ≠ [] ↔ componentTable9.length < 10) := by
  have h := C3_placeholder_connections netTableC3 [] "CLK" "5" "A1" netCLK (by decide)
  exact ⟨h.1.trans (by decide), h.2 componentTable9⟩

/-- The labels produced for one instance with a resolved position and a
LOCATION anchor contain the refdes label at the anchor-shifted position. -/
theorem labelsForInstance_location
    (instance_positions : List (String × InstancePosition))
    (symbol_graphics : List (String × SymbolGraphics)) (st : Counters)
    (refdes : String) (inst : DxInstance) (pos : InstancePosition)
    (k : String) (g : SymbolGraphics) (loc : TextAnchor)
    (hpos : dictLookup inst.instance_id instance_positions = some pos)
    (hkey : inst.symbol_cache_key = some k)
    (hg : dictLookup k symbol_graphics = some g)
    (hloc : dictLookup "LOCATION" g.text_positions = some loc) :
    ∃ prim ∈ (labelsForInstance instance_positions symbol_graphics st refdes inst).1,
      prim.type = "text" ∧ prim.shape_type = "refdes_label" ∧
      prim.text_content = refdes ∧
      prim.origin = (pos.x + loc.x, pos.y + loc.y) ∧
      prim.page_index = pos.page_index := by
  have htps : symbolGraphicsFor symbol_graphics inst.symbol_cache_key = g.text_positions := by
    simp [symbolGraphicsFor, hkey, hg]
  refine ⟨mkRefdesLabel refdes inst pos loc
      (generateElementId "refdes" st).1
      (nextSequenceIndex (generateElementId "refdes" st).2).1,
    ?_, rfl, rfl, rfl, rfl, rfl⟩
  simp only [labelsForInstance, hpos, htps, hloc]
  cases hval : dictLookup "VALUE" g.text_positions <;>
    simp [hval, generateElementId, nextSequenceIndex]

/-- Unfolding of label generation over a cons cell of `dx_instances`. -/
theorem generateInstanceTextLabels_cons
    (instance_positions : List (String × InstancePosition))
    (symbol_graphics : List (String × SymbolGraphics))
    (r : String) (i : DxInstance) (rest : List (String × DxInstance)) (st : Counters) :
    (generateInstanceTextLabels instance_positions symbol_graphics ((r, i) :: rest) st).1 =
      (labelsForInstance instance_positions symbol_graphics st r i).1 ++
      (generateInstanceTextLabels instance_positions symbol_graphics rest
        (labelsForInstance instance_positions symbol_graphics st r i).2).1 := by
  cases h : labelsForInstance instance_positions symbol_graphics st r i with
  | mk prims st2 =>
    cases h2 : generateInstanceTextLabels instance_positions symbol_graphics rest st2 with
    | mk rps st3 => simp [generateInstanceTextLabels, h, h2]

/-- **C7**: every instance with a resolved absolute position and a symbol
carrying a LOCATION (refdes-label) anchor yields a text primitive in the
generated label list whose text is the refdes, positioned at the instance
position plus the anchor offset, on the instance's resolved page. -/
theorem C7_refdes_label_emitted
    (dxs : List (String × DxInstance))
    (instance_positions : List (String × InstancePosition))
    (symbol_graphics : List (String × SymbolGraphics)) (st : Counters)
    (refdes : String) (inst : DxInstance) (pos : InstancePosition)
    (k : String) (g : SymbolGraphics) (loc : TextAnchor)
    (hmem : (refdes, inst) ∈ dxs)
    (hpos : dictLookup inst.instance_id instance_positions = some pos)
    (hkey : inst.symbol_cache_key = some k)
    (hg : dictLookup k symbol_graphics = some g)
    (hloc : dictLookup "LOCATION" g.text_positions = some loc) :
    ∃ prim ∈ (generateInstanceTextLabels instance_positions symbol_graphics dxs st).1,
      prim.type = "text" ∧ prim.shape_type = "refdes_label" ∧
      prim.text_content = refdes ∧
      prim.origin = (pos.x + loc.x, pos.y + loc.y) ∧
      prim.page_index = pos.page_index := by
  induction dxs generalizing st with
  | nil => cases hmem
  | cons hd rest ih =>
    obtain ⟨r, i⟩ := hd
    rw [List.mem_cons] at hmem
    rcases hmem with heq | hmem
    · rcases heq with ⟨rfl, rfl⟩
      obtain ⟨prim, hprim, hprops⟩ :=
        labelsForInstance_location instance_positions symbol_graphics st refdes inst
          pos k g loc hpos hkey hg hloc
      refine ⟨prim, ?_, hprops⟩
      rw [generateInstanceTextLabels_cons]
      exact List.mem_append_left _ hprim
    · obtain ⟨prim, hprim, hprops⟩ :=
        ih (labelsForInstance instance_positions symbol_graphics st r i).2 hmem
      refine ⟨prim, ?_, hprops⟩
      rw [generateInstanceTextLabels_cons]
      exact List.mem_append_right _ hprim

/-- The single dx-instance of the C7 round-trip fixture. -/
def dxInstanceR1 : DxInstance :=
  { instance_id := "I167231504", library := "res", system_capture_model := "resistor",
    symbol := "res##resistor@sym_1", symbol_cache_key := some "res##resistor",
    block := "usb_block", cpath := "@worklib.usb_block(tbl_1):I167231504" }

/-- The resolved position of the C7 fixture: (1000, 2000) on absolute page 3. -/
def positionR1 : InstancePosition :=
  { graphics_id := "864692227966763070", x := 1000, y := 2000,
    page_file := "page_file_1.ascii", block := "usb_block", page_index := 3 }

/-- The refdes-label anchor of the C7 fixture's symbol. -/
def anchorLoc : TextAnchor :=
  { x := -250, y := 400, default_value := "C?", justification := 0, rotation := 0,
    style_ref := "Style2" }

/-- The symbol-cache record of the C7 fixture. -/
def symbolRes : SymbolGraphics :=
  { symbol_key := "res##resistor", text_positions := [("LOCATION", anchorLoc)] }

/-- Witness for C7: the fixture emits an `R1` text primitive at
(1000 - 250, 2000 + 400) on page 3. -/
theorem C7_refdes_label_emitted_witness :
    ∃ prim ∈ (generateInstanceTextLabels [("I167231504", positionR1)]
        [("res##resistor", symbolRes)] [("R1", dxInstanceR1)]
        { element := 0, seq := 0 }).1,
      prim.type = "text" ∧ prim.shape_type = "refdes_label" ∧
      prim.text_content = "R1" ∧ prim.origin = (750, 2400) ∧ prim.page_index = 3 := by
  have h := C7_refdes_label_emitted [("R1", dxInstanceR1)] [("I167231504", positionR1)]
    [("res##resistor", symbolRes)] { element := 0, seq := 0 } "R1" dxInstanceR1 positionR1
    "res##resistor" symbolRes anchorLoc (by simp) (by decide) (by decide) (by decide)
    (by decide)
  simpa [positionR1, anchorLoc] using h

end Extractor
